import Mathlib

/-!
Verification development for the trust-boundary proxy of the
rgthelen/rownd-supabase-sdk repository.

The repository ships three server-side entry points plus a client wrapper:

* a universal proxy Edge Function (second document of
  supabase-js/src/index.ts: getRowndKeys, validateRowndToken, serve);
* a simplified edge module (third document of supabase-js/src/index.ts:
  getJWKS, validateRowndToken, createRowndHandler);
* the drop-in serve wrapper and the example db-proxy / storage-proxy
  handlers (the unnamed source parts);
* the client wrapper createClient with serializeQuery (first document of
  supabase-js/src/index.ts).

JavaScript objects are embedded as ordered field lists over a JSON value
type; the data engine (Supabase) is an external collaborator and is modelled
as a row store queried through conjunctive equality filters, which is the
only interface the proxy code uses.
-/

set_option maxRecDepth 8192

/- JSON values.  Arrays and objects use mutually inductive list types so
that decidable equality can be derived. -/
mutual
inductive JVal where
  | jnull
  | jbool (b : Bool)
  | jnum (n : Int)
  | jstr (s : String)
  | jarr (xs : JArr)
  | jobj (fs : JObj)
  deriving DecidableEq, Repr

inductive JArr where
  | nil
  | cons (hd : JVal) (tl : JArr)
  deriving DecidableEq, Repr

inductive JObj where
  | nil
  | cons (k : String) (v : JVal) (tl : JObj)
  deriving DecidableEq, Repr
end

/-- A JavaScript object as an ordered list of named fields. -/
abbrev Fields := List (String × JVal)

/-- A database row, as the proxy sees it: a JSON object. -/
abbrev Row := Fields

def JObj.toFields : JObj → Fields
  | .nil => []
  | .cons k v t => (k, v) :: JObj.toFields t

def JObj.ofFields : Fields → JObj
  | [] => .nil
  | (k, v) :: t => .cons k v (JObj.ofFields t)

def JArr.ofList : List JVal → JArr
  | [] => .nil
  | v :: t => .cons v (JArr.ofList t)

/-- Build a JSON object value from a field list. -/
def jobjOf (fs : Fields) : JVal := .jobj (JObj.ofFields fs)

/-- Build a JSON array value from a list. -/
def jarrOf (xs : List JVal) : JVal := .jarr (JArr.ofList xs)

/-- A row rendered as a JSON value. -/
def rowJ (r : Row) : JVal := jobjOf r

/-- Property access on a JavaScript object: the value of the first field
with the given name. -/
def jlookup (fs : Fields) (k : String) : Option JVal :=
  (fs.find? (fun p => p.1 == k)).map (fun p => p.2)

/-- JavaScript spread-with-override, the shape used throughout the source:
an object literal spreading base fields and then writing key k.  An existing
field named k keeps its position but takes the new value; a fresh field is
appended. -/
def objSet (fs : Fields) (k : String) (v : JVal) : Fields :=
  if fs.any (fun p => p.1 == k) then
    fs.map (fun p => if p.1 == k then (k, v) else p)
  else fs ++ [(k, v)]

/-- Fields contributed by spreading a JavaScript value into an object
literal.  Spreading a non-object contributes no string-named field that the
proxy ever injects (spreading a string yields numeric-index keys only), so
those cases contribute nothing relevant. -/
def spreadFields : JVal → Fields
  | .jobj o => o.toFields
  | _ => []

/-- Spread of a possibly-absent (undefined) value. -/
def spreadOpt : Option JVal → Fields
  | none => []
  | some v => spreadFields v

/-- Spread caller data and force the owner column, as in the source's
object literal spreading the data and then writing user_id from the
verified token. -/
def forceOwner (v : JVal) (uid : String) : Fields :=
  objSet (spreadFields v) "user_id" (.jstr uid)

/-- JavaScript string-or-default: the or-operator on a possibly absent
string, where the empty string is falsy. -/
def jsOrStr (o : Option String) (d : String) : String :=
  match o with
  | some s => if s = "" then d else s
  | none => d

/-- JavaScript template-literal rendering of a possibly-undefined string. -/
def jsTpl (o : Option String) : String := o.getD "undefined"

/-- Conjunctive equality-filter match, the semantics of chained eq calls on
a Supabase query builder: every filter column must be present with exactly
the filtered value. -/
def matchesFilters (r : Row) (fs : Fields) : Bool :=
  fs.all (fun f => decide (jlookup r f.1 = some f.2))

/-- Data-engine model: a select returns exactly the rows satisfying all
equality filters. -/
def runSelect (tbl : List Row) (fs : Fields) : List Row :=
  tbl.filter (fun r => matchesFilters r fs)

/-- Data-engine state: named tables of rows. -/
structure EngineState where
  tables : List (String × List Row)
  deriving Repr

def getTable (eng : EngineState) (t : String) : List Row :=
  ((eng.tables.find? (fun p => p.1 == t)).map (fun p => p.2)).getD []

/-- Data-engine model of an update applied to one row: each updated column
is written with the new value. -/
def applyUpdate (r : Row) (vals : Fields) : Row :=
  vals.foldl (fun acc kv => objSet acc kv.1 kv.2) r

/-- JavaScript String.prototype.includes. -/
def strIncludes (s pat : String) : Bool :=
  decide (pat.toList <:+: s.toList)


/-- Calls the proxies issue against the data engine (the native Supabase
client surface the source uses). -/
inductive EngineCall where
  | dbSelect (table : String) (columns : String) (filters : Fields)
  | dbInsert (table : String) (records : List Fields)
  | dbUpdate (table : String) (values : Fields) (filters : Fields)
  | dbDelete (table : String) (filters : Fields)
  | dbUpsert (table : String) (records : List Fields)
  | stUpload (bucket : String) (path : String)
  | stDownload (bucket : String) (path : String)
  | stRemove (bucket : String) (paths : List String)
  | stList (bucket : String) (path : String)
  | stPublicUrl (bucket : String) (path : String)
  | rpcCall (functionName : String) (args : Fields)
  deriving DecidableEq, Repr

/-- Data-engine outcome recorded for a call.  For a select (or a mutation
followed by a select) the rows; for mutations without a trailing select the
engine-side affected rows; storage and rpc results are opaque to every
claim. -/
inductive EngineResult where
  | dbRows (rows : List Row)
  | dbOk
  | stDone
  | rpcDone
  deriving DecidableEq, Repr

structure HttpResponse where
  status : Nat
  body : JVal
  deriving DecidableEq, Repr

/-- Bearer token content, as the verification routine interprets the raw
header string: key identifier, subject claim, issuer, whether the signature
verifies under the key named by kid, and expiry. -/
structure Token where
  kid : String
  sub : Option String
  iss : String
  sigOk : Bool
  expired : Bool
  deriving DecidableEq, Repr

/-- Serialized query-builder state put on the wire by the client wrapper's
serializeQuery (supabase-js/src/index.ts, first document). -/
structure SerializedQuery where
  filters : Fields := []
  select : Option String := none
  order : List JVal := []
  limit : Option Int := none
  deriving Repr

/-- Client-side query-builder state read by serializeQuery. -/
structure ClientQuery where
  filtersState : Option Fields := none
  selectState : Option String := none
  orderState : Option (List JVal) := none
  limitState : Option Int := none

/-- serializeQuery from the client wrapper: filters or empty, select or
star, order or empty, limit passed through. -/
def serializeQuery (q : ClientQuery) : SerializedQuery :=
  { filters := q.filtersState.getD []
    select := some (jsOrStr q.selectState "*")
    order := q.orderState.getD []
    limit := q.limitState }

/-- JSON request body of the universal proxy, with one optional slot per
field the serve function reads; an absent JSON field is none (undefined). -/
structure ReqBody where
  resource : Option String := none
  operation : Option String := none
  table : Option String := none
  query : Option SerializedQuery := none
  data : Option JVal := none
  id : Option JVal := none
  bucket : Option String := none
  path : Option String := none
  fileData : Option (String × String) := none
  paths : Option (List String) := none
  functionName : Option String := none
  args : Option JVal := none

/-- Body sent by the client wrapper for a database operation: exactly the
four fields resource, operation, table and query; in particular there is no
data field. -/
def wrapperDbBody (op table : String) (cq : ClientQuery) : ReqBody :=
  { resource := some "database"
    operation := some op
    table := some table
    query := some (serializeQuery cq) }

structure ProxyRequest where
  method : String
  rowndToken : Option Token
  body : ReqBody

/-- validateRowndToken of the universal proxy (index.ts second document):
remote-JWKS verification is the external verifyKey argument; a failure is
wrapped as an Invalid-token message, and a missing or empty subject claim
is rejected inside the same wrapper. -/
def universalValidate (verifyKey : Token → Except String Unit) (tok : Token) :
    Except String String :=
  match verifyKey tok with
  | .error e => .error ("Invalid token: " ++ e)
  | .ok _ =>
    match tok.sub with
    | none => .error ("Invalid token: " ++ "Token missing subject claim")
    | some s =>
      if s = "" then .error ("Invalid token: " ++ "Token missing subject claim")
      else .ok s

/-- Database branch of the universal proxy serve: the switch over the
operation field.  Select filters by user_id only (the serialized caller
filters are never read); insert and upsert spread body.data and then force
user_id; update and delete chain eq on user_id and on body.id. -/
def universalDatabase (uid : String) (eng : EngineState) (b : ReqBody) :
    Except String (EngineCall × EngineResult) :=
  let t := b.table.getD ""
  if b.operation = some "select" then
    match b.query with
    | none => .error "Cannot read properties of undefined (reading 'select')"
    | some q =>
      let sel := jsOrStr q.select "*"
      let fl : Fields := [("user_id", .jstr uid)]
      .ok (.dbSelect t sel fl, .dbRows (runSelect (getTable eng t) fl))
  else if b.operation = some "insert" then
    .ok (.dbInsert t [objSet (spreadOpt b.data) "user_id" (.jstr uid)], .dbOk)
  else if b.operation = some "update" then
    let fl : Fields := [("user_id", .jstr uid), ("id", b.id.getD .jnull)]
    .ok (.dbUpdate t (spreadOpt b.data) fl, .dbOk)
  else if b.operation = some "delete" then
    let fl : Fields := [("user_id", .jstr uid), ("id", b.id.getD .jnull)]
    .ok (.dbDelete t fl, .dbOk)
  else if b.operation = some "upsert" then
    .ok (.dbUpsert t [objSet (spreadOpt b.data) "user_id" (.jstr uid)], .dbOk)
  else .error ("Unknown database operation: " ++ jsTpl b.operation)

/-- Storage branch of the universal proxy serve: every path is built as the
template literal of userId, a slash and the caller path (list defaults the
absent path to the empty string; remove maps each caller path). -/
def universalStorage (uid : String) (b : ReqBody) :
    Except String (EngineCall × EngineResult) :=
  let bucket := b.bucket.getD ""
  if b.operation = some "upload" then
    .ok (.stUpload bucket (uid ++ "/" ++ jsTpl b.path), .stDone)
  else if b.operation = some "download" then
    .ok (.stDownload bucket (uid ++ "/" ++ jsTpl b.path), .stDone)
  else if b.operation = some "remove" then
    match b.paths with
    | none => .error "Cannot read properties of undefined (reading 'map')"
    | some ps => .ok (.stRemove bucket (ps.map (fun p => uid ++ "/" ++ p)), .stDone)
  else if b.operation = some "list" then
    .ok (.stList bucket (uid ++ "/" ++ jsOrStr b.path ""), .stDone)
  else .error ("Unknown storage operation: " ++ jsTpl b.operation)

/-- Body of the universal proxy serve after the CORS shortcut: the
try-block.  Returns either a complete response (with the engine interaction
performed, if any) or the thrown error message. -/
def universalTry (verifyKey : Token → Except String Unit) (eng : EngineState)
    (ser : EngineResult → JVal) (req : ProxyRequest) :
    Except String (HttpResponse × Option (EngineCall × EngineResult)) :=
  match req.rowndToken with
  | none =>
    .ok (⟨401, jobjOf [("error", .jstr "Missing X-Rownd-Token header")]⟩, none)
  | some tok =>
    match universalValidate verifyKey tok with
    | .error m => .error m
    | .ok uid =>
      let b := req.body
      if b.resource = some "health" then
        .ok (⟨200, jobjOf [("status", .jstr "ok"), ("userId", .jstr uid)]⟩, none)
      else if b.resource = some "database" then
        match universalDatabase uid eng b with
        | .error m => .error m
        | .ok (c, r) => .ok (⟨200, ser r⟩, some (c, r))
      else if b.resource = some "storage" then
        match universalStorage uid b with
        | .error m => .error m
        | .ok (c, r) => .ok (⟨200, ser r⟩, some (c, r))
      else if b.resource = some "rpc" then
        let call := EngineCall.rpcCall (b.functionName.getD "")
          (objSet (spreadOpt b.args) "user_id" (.jstr uid))
        .ok (⟨200, ser .rpcDone⟩, some (call, .rpcDone))
      else .error ("Unknown resource: " ++ jsTpl b.resource)

/-- serve of the universal proxy Edge Function (index.ts second document):
CORS preflight short-circuit, then the try-block; a thrown message becomes
a JSON error response with status 401 when it mentions Invalid token and
500 otherwise. -/
def universalServe (verifyKey : Token → Except String Unit) (eng : EngineState)
    (ser : EngineResult → JVal) (req : ProxyRequest) :
    HttpResponse × Option (EngineCall × EngineResult) :=
  if req.method = "OPTIONS" then (⟨200, .jnull⟩, none)
  else
    match universalTry verifyKey eng ser req with
    | .ok out => out
    | .error msg =>
      (⟨if strIncludes msg "Invalid token" then 401 else 500,
        jobjOf [("error", .jstr msg)]⟩, none)

/-- Key-set document: the key identifiers published by the identity
provider; signature checking per key is folded into Token.sigOk. -/
abbrev KeySet := List String

/-- Cache duration of getRowndKeys in the universal proxy: one hour in
milliseconds. -/
def JWKS_CACHE_DURATION : Nat := 3600000

/-- Module-level cache state of getRowndKeys. -/
structure RowndKeysState where
  jwksCache : Option KeySet
  jwksCacheTime : Nat
  deriving DecidableEq, Repr

/-- One-shot network environment: the current clock and what a fetch of the
key-set endpoint would yield (an error statusText when the response is not
ok). -/
structure KeyFetchEnv where
  now : Nat
  fetched : Except String KeySet
  deriving Repr

/-- Fetch step of getRowndKeys: a failed response throws and leaves the
cache untouched; a successful one replaces the cache and its timestamp.
The second component counts network fetches performed. -/
def rowndKeysFetch (env : KeyFetchEnv) : Except String (KeySet × RowndKeysState) × Nat :=
  match env.fetched with
  | .ok ks => (.ok (ks, ⟨some ks, env.now⟩), 1)
  | .error statusText => (.error ("Failed to fetch Rownd JWKS: " ++ statusText), 1)

/-- getRowndKeys of the universal proxy (index.ts second document): serve
the cache while it is younger than the cache duration, otherwise fetch. -/
def getRowndKeys (st : RowndKeysState) (env : KeyFetchEnv) :
    Except String (KeySet × RowndKeysState) × Nat :=
  match st.jwksCache with
  | some ks =>
    if env.now - st.jwksCacheTime < JWKS_CACHE_DURATION then (.ok (ks, st), 0)
    else rowndKeysFetch env
  | none => rowndKeysFetch env

/-- Module-level cache state of getJWKS in the simplified edge module
(index.ts third document): a local key set and an absolute expiry time. -/
structure JwksCacheState where
  jwksCache : Option KeySet
  cacheExpiry : Nat
  deriving DecidableEq, Repr

/-- getJWKS of the simplified edge module: serve the cached local key set
before its expiry, otherwise fetch and cache for thirty minutes.  The
second component counts network fetches performed; a failed fetch throws
with the cache untouched. -/
def getJWKS (st : JwksCacheState) (env : KeyFetchEnv) :
    Except String (KeySet × JwksCacheState) × Nat :=
  match st.jwksCache with
  | some ks =>
    if env.now < st.cacheExpiry then (.ok (ks, st), 0)
    else
      match env.fetched with
      | .ok ksNew => (.ok (ksNew, ⟨some ksNew, env.now + 30 * 60 * 1000⟩), 1)
      | .error e => (.error e, 1)
  | none =>
    match env.fetched with
    | .ok ksNew => (.ok (ksNew, ⟨some ksNew, env.now + 30 * 60 * 1000⟩), 1)
    | .error e => (.error e, 1)

def ROWND_ISSUER : String := "https://api.rownd.io"

/-- jwtVerify against a local key set built from the fetched document: the
token's key identifier must name a key of the set, the signature must
verify, the issuer must match and the token must not be expired.  A key
identifier absent from the set fails with the no-applicable-key error; a
local key set never fetches. -/
def jwtVerifyLocal (ks : KeySet) (tok : Token) (expectedIss : String) :
    Except String Token :=
  if tok.kid ∈ ks then
    if tok.sigOk then
      if tok.iss = expectedIss then
        if tok.expired then .error "exp claim timestamp check failed"
        else .ok tok
      else .error "unexpected iss claim value"
    else .error "signature verification failed"
  else .error "no applicable key found in the JSON Web Key Set"

/-- validateRowndToken of the simplified edge module (index.ts third
document): missing header throws unwrapped; any failure inside the try is
wrapped as a Token-validation-failed message; an absent or empty (falsy)
subject claim is rejected.  Returns the outcome, the cache state after the
call and the number of key-set fetches performed. -/
def validateSimplified (st : JwksCacheState) (env : KeyFetchEnv)
    (hdrToken : Option Token) :
    Except String (Token × String) × JwksCacheState × Nat :=
  match hdrToken with
  | none => (.error "Missing X-Rownd-Token header", st, 0)
  | some tok =>
    match getJWKS st env with
    | (.error e, n) => (.error ("Token validation failed: " ++ e), st, n)
    | (.ok (ks, st'), n) =>
      match jwtVerifyLocal ks tok ROWND_ISSUER with
      | .error e => (.error ("Token validation failed: " ++ e), st', n)
      | .ok p =>
        match p.sub with
        | none =>
          (.error ("Token validation failed: " ++ "Invalid token: missing sub (user_id)"),
            st', n)
        | some s =>
          if s = "" then
            (.error ("Token validation failed: " ++ "Invalid token: missing sub (user_id)"),
              st', n)
          else (.ok (p, s), st', n)

structure EdgeRequest where
  method : String
  rowndToken : Option Token

/-- serve of the drop-in edge wrapper (unnamed part 002): CORS preflight,
missing-token short circuit with status 401, token validation via the
external remote-JWKS verifier wrapped as an Invalid-token message, then the
user handler; a thrown message maps to 401 when it mentions Invalid token
and to 500 otherwise. -/
def edgeServe (verifyKey : Token → Except String Unit)
    (handler : String → Except String (HttpResponse × Option (EngineCall × EngineResult)))
    (req : EdgeRequest) : HttpResponse × Option (EngineCall × EngineResult) :=
  if req.method = "OPTIONS" then (⟨200, .jnull⟩, none)
  else
    let outcome : Except String (HttpResponse × Option (EngineCall × EngineResult)) :=
      match req.rowndToken with
      | none =>
        .ok (⟨401, jobjOf [("error", .jstr "Missing X-Rownd-Token header")]⟩, none)
      | some tok =>
        match universalValidate verifyKey tok with
        | .error m => .error m
        | .ok uid => handler uid
    match outcome with
    | .ok out => out
    | .error msg =>
      (⟨if strIncludes msg "Invalid token" then 401 else 500,
        jobjOf [("error", .jstr msg)]⟩, none)

/-- createRowndHandler of the simplified edge module (index.ts third
document): CORS preflight, then validateRowndToken on the request inside a
catch-all that maps every thrown message, missing-token included, to
status 400; a successful handler result is returned as a 200 JSON
response. -/
def createRowndHandlerServe (st : JwksCacheState) (env : KeyFetchEnv)
    (handler : String → Except String (JVal × Option (EngineCall × EngineResult)))
    (req : EdgeRequest) : HttpResponse × Option (EngineCall × EngineResult) :=
  if req.method = "OPTIONS" then (⟨200, .jstr "ok"⟩, none)
  else
    match (validateSimplified st env req.rowndToken).1 with
    | .error m => (⟨400, jobjOf [("error", .jstr m)]⟩, none)
    | .ok (_, uid) =>
      match handler uid with
      | .ok (v, c) => (⟨200, v⟩, c)
      | .error m => (⟨400, jobjOf [("error", .jstr m)]⟩, none)

def JArr.toList : JArr → List JVal
  | .nil => []
  | .cons v t => v :: JArr.toList t

/-- Request body of the example db-proxy handler (unnamed part 000). -/
structure DbProxyBody where
  operation : Option String := none
  table : Option String := none
  columns : Option String := none
  values : Option JVal := none
  filters : Option Fields := none
  id : Option JVal := none

/-- Filters of the db-proxy select: the identity equality filter whenever
the table is not the public one, followed by every caller-supplied
filter. -/
def dbProxySelectFilters (uid t : String) (b : DbProxyBody) : Fields :=
  (if t ≠ "public_tables" then [("user_id", JVal.jstr uid)] else []) ++ b.filters.getD []

/-- Records inserted by the db-proxy: an array of values maps owner-forcing
over each element, anything else is treated as a single record. -/
def dbProxyInsertRecords (uid : String) (values : Option JVal) : List Fields :=
  match values with
  | some (.jarr vs) => vs.toList.map (fun v => forceOwner v uid)
  | some v => [forceOwner v uid]
  | none => [forceOwner .jnull uid]

/-- The example db-proxy handler (unnamed part 000, first half), as passed
to createRowndHandler.  Select applies columns, the identity filter for
non-public tables and the caller filters; insert forces the owner into
every record and returns the inserted rows; update and delete chain eq on
the row id and on user_id, update returning the updated rows and delete
returning only a success flag. -/
def dbProxyHandler (uid : String) (eng : EngineState) (b : DbProxyBody) :
    Except String (JVal × Option (EngineCall × EngineResult)) :=
  let t := b.table.getD ""
  if b.operation = some "select" then
    let cols := jsOrStr b.columns "*"
    let fl := dbProxySelectFilters uid t b
    let rows := runSelect (getTable eng t) fl
    .ok (jobjOf [("result", jarrOf (rows.map rowJ))],
      some (.dbSelect t cols fl, .dbRows rows))
  else if b.operation = some "insert" then
    let records := dbProxyInsertRecords uid b.values
    .ok (jobjOf [("result", jarrOf (records.map rowJ))],
      some (.dbInsert t records, .dbRows records))
  else if b.operation = some "update" then
    let fl : Fields := [("id", b.id.getD .jnull), ("user_id", .jstr uid)]
    let updated := (runSelect (getTable eng t) fl).map
      (fun r => applyUpdate r (spreadOpt b.values))
    .ok (jobjOf [("result", jarrOf (updated.map rowJ))],
      some (.dbUpdate t (spreadOpt b.values) fl, .dbRows updated))
  else if b.operation = some "delete" then
    let fl : Fields := [("id", b.id.getD .jnull), ("user_id", .jstr uid)]
    let affected := runSelect (getTable eng t) fl
    .ok (jobjOf [("result", jobjOf [("success", .jbool true)])],
      some (.dbDelete t fl, .dbRows affected))
  else .error ("Unsupported operation: " ++ jsTpl b.operation)

/-- Form fields of the example storage-proxy handler (unnamed part 000,
second half); an absent form entry is none (a null form value renders as
the string null inside a template literal). -/
structure StorageForm where
  path : Option String := none
  bucket : Option String := none
  operation : Option String := none

/-- The example storage-proxy handler (unnamed part 000, second half), as
passed to createRowndHandler.  The user path is the template literal of
userId, a slash and the caller path; upload and delete operate on the user
path, while list passes the bare userId to the object store.  publicUrlOf
and listData stand for the object-store responses, which the handler only
echoes. -/
def storageProxyHandler (uid : String) (publicUrlOf : String → String)
    (listData : JVal) (form : StorageForm) :
    Except String (JVal × List EngineCall) :=
  let userPath := uid ++ "/" ++ (form.path.getD "null")
  let bucket := form.bucket.getD ""
  let op := jsOrStr form.operation "upload"
  if op = "upload" then
    .ok (jobjOf [("result", jobjOf
        [("path", .jstr userPath), ("publicUrl", .jstr (publicUrlOf userPath))])],
      [.stUpload bucket userPath, .stPublicUrl bucket userPath])
  else if op = "delete" then
    .ok (jobjOf [("result", jobjOf [("success", .jbool true)])],
      [.stRemove bucket [userPath]])
  else if op = "list" then
    .ok (jobjOf [("result", listData)], [.stList bucket uid])
  else .error ("Unsupported operation: " ++ op)

/- Concrete instances used by witnesses and counterexamples. -/

/-- A well-formed token for subject user-42 under key kidA. -/
def tokA : Token :=
  { kid := "kidA", sub := some "user-42", iss := ROWND_ISSUER
    sigOk := true, expired := false }

/-- Remote-JWKS verification that accepts every token. -/
def verifyAny : Token → Except String Unit := fun _ => .ok ()

/-- Empty data engine. -/
def engEmpty : EngineState := ⟨[]⟩

/-- Result serialization used where no claim inspects success bodies. -/
def serNull : EngineResult → JVal := fun _ => .jnull

/-- A todos row owned by user-42. -/
def rowOwn : Row := [("id", .jnum 1), ("user_id", .jstr "user-42"), ("title", .jstr "a")]

/-- A todos row owned by someone else. -/
def rowOther : Row := [("id", .jnum 2), ("user_id", .jstr "mallory"), ("title", .jstr "b")]

/-- A data engine holding one todos table with rows of two owners. -/
def engTodos : EngineState := ⟨[("todos", [rowOwn, rowOther])]⟩

/-- Caller body whose data and rpc args try to spoof user_id. -/
def bodyC1 : ReqBody :=
  { table := some "todos"
    data := some (.jobj (.cons "user_id" (.jstr "mallory") (.cons "x" (.jnum 1) .nil)))
    args := some (.jobj (.cons "user_id" (.jstr "mallory") .nil))
    functionName := some "do_thing" }

/-- Db-proxy body whose inserted values array tries to spoof user_id. -/
def dbBodyC1 : DbProxyBody :=
  { table := some "todos"
    values := some (.jarr (.cons (.jobj (.cons "user_id" (.jstr "mallory") .nil)) .nil)) }

def cqC10 : ClientQuery := { filtersState := some [("title", .jstr "hello")] }

def bodyC2 : ReqBody := { table := some "todos", query := some {} }

def dbBodyC2 : DbProxyBody := { table := some "todos", filters := some [("title", .jstr "a")] }

def rowForeign : Row := [("id", .jnum 1), ("user_id", .jstr "mallory")]

def rowMine : Row := [("id", .jnum 1), ("user_id", .jstr "user-42")]

def engForeign : EngineState := ⟨[("todos", [rowForeign])]⟩

def engMine : EngineState := ⟨[("todos", [rowMine])]⟩

def delBody : DbProxyBody :=
  { operation := some "delete", table := some "todos", id := some (.jnum 1) }

def bodyDel : ReqBody := { table := some "todos", id := some (.jnum 1) }

def formList : StorageForm :=
  { path := some "photos", bucket := some "bkt", operation := some "list" }

def formC4 : StorageForm := { path := some "photos", bucket := some "bkt" }

def cdnUrl : String → String := fun p => "https://cdn.example/" ++ p

def bodyC4 : ReqBody :=
  { bucket := some "bkt", path := some "photos/cat.png"
    paths := some ["a.png", "b.png"] }

def ksA : KeySet := ["kidA"]

def stFresh : JwksCacheState := { jwksCache := some ksA, cacheExpiry := 1000 }

def envC5 : KeyFetchEnv := { now := 500, fetched := .ok ksA }

def tokB : Token :=
  { kid := "kidB", sub := some "user-42", iss := ROWND_ISSUER
    sigOk := true, expired := false }

def stC5 : JwksCacheState := { jwksCache := some ["kid1", "kid2"], cacheExpiry := 99999 }

def envC5b : KeyFetchEnv := { now := 12345, fetched := .ok ["kid3"] }

def tokZ : Token :=
  { kid := "kidZ", sub := some "user-7", iss := ROWND_ISSUER
    sigOk := true, expired := false }

def stStale : RowndKeysState := { jwksCache := some ["kidA"], jwksCacheTime := 0 }

def envFail : KeyFetchEnv :=
  { now := JWKS_CACHE_DURATION, fetched := .error "Service Unavailable" }

def hndR : String → Except String (HttpResponse × Option (EngineCall × EngineResult)) :=
  fun _ => .ok (⟨200, .jnull⟩, none)

def hndJ : String → Except String (JVal × Option (EngineCall × EngineResult)) :=
  fun _ => .ok (.jnull, none)

theorem objSet_find_of_any (k : String) (v : JVal) :
    ∀ fs : Fields, fs.any (fun p => p.1 == k) = true →
      (fs.map (fun p => if p.1 == k then (k, v) else p)).find? (fun p => p.1 == k)
        = some (k, v)
  | [], h => by simp at h
  | a :: t, h => by
      by_cases hak : (a.1 == k) = true
      · have hfa : (if a.1 == k then (k, v) else a) = (k, v) := by rw [hak]; rfl
        rw [List.map_cons, hfa, List.find?_cons_of_pos]
        simp
      · have hak' : (a.1 == k) = false := by simpa using hak
        have hfa : (if a.1 == k then (k, v) else a) = a := by rw [hak']; rfl
        have ht : t.any (fun p => p.1 == k) = true := by
          rw [List.any_cons, hak'] at h
          simpa using h
        rw [List.map_cons, hfa, List.find?_cons_of_neg]
        · exact objSet_find_of_any k v t ht
        · simp [hak']

theorem objSet_find_of_none (k : String) (v : JVal) :
    ∀ fs : Fields, fs.any (fun p => p.1 == k) = false →
      (fs ++ [(k, v)]).find? (fun p => p.1 == k) = some (k, v)
  | [], _ => by
      rw [List.nil_append, List.find?_cons_of_pos]
      simp
  | a :: t, h => by
      have hak : (a.1 == k) = false := by
        cases hb : (a.1 == k) with
        | false => rfl
        | true => rw [List.any_cons, hb] at h; simp at h
      have ht : t.any (fun p => p.1 == k) = false := by
        rw [List.any_cons, hak] at h
        simpa using h
      rw [List.cons_append, List.find?_cons_of_neg]
      · exact objSet_find_of_none k v t ht
      · simp [hak]

theorem jlookup_objSet (fs : Fields) (k : String) (v : JVal) :
    jlookup (objSet fs k v) k = some v := by
  unfold objSet jlookup
  cases h : fs.any (fun p => p.1 == k) with
  | true =>
      have hr := objSet_find_of_any k v fs h
      rw [if_pos (rfl : (true : Bool) = true), hr]
      rfl
  | false =>
      have hr := objSet_find_of_none k v fs h
      rw [if_neg (by simp : ¬((false : Bool) = true)), hr]
      rfl

theorem matchesFilters_mem {r : Row} {fs : Fields} (hm : matchesFilters r fs = true)
    {f : String × JVal} (hf : f ∈ fs) : jlookup r f.1 = some f.2 := by
  simp only [matchesFilters, List.all_eq_true, decide_eq_true_eq] at hm
  exact hm f hf

theorem mem_runSelect_owner {tbl : List Row} {fs : Fields} {uid : String} {r : Row}
    (hfs : ("user_id", JVal.jstr uid) ∈ fs) (hr : r ∈ runSelect tbl fs) :
    jlookup r "user_id" = some (.jstr uid) := by
  rcases List.mem_filter.mp hr with ⟨_, hm⟩
  exact matchesFilters_mem hm hfs

theorem mem_dbProxyInsertRecords_owner {uid : String} {values : Option JVal}
    {rec : Fields} (h : rec ∈ dbProxyInsertRecords uid values) :
    jlookup rec "user_id" = some (.jstr uid) := by
  unfold dbProxyInsertRecords at h
  cases values with
  | none =>
    simp at h
    subst h
    exact jlookup_objSet _ _ _
  | some v =>
    cases v with
    | jarr vs =>
      rcases List.mem_map.mp h with ⟨w, _, hw⟩
      rw [← hw]
      exact jlookup_objSet _ _ _
    | jnull => simp at h; subst h; exact jlookup_objSet _ _ _
    | jbool x => simp at h; subst h; exact jlookup_objSet _ _ _
    | jnum x => simp at h; subst h; exact jlookup_objSet _ _ _
    | jstr x => simp at h; subst h; exact jlookup_objSet _ _ _
    | jobj x => simp at h; subst h; exact jlookup_objSet _ _ _

/-- C1: for every database insert or upsert and every rpc call handled by
the universal proxy, and for every db-proxy insert, the payload forwarded
to the data engine carries user_id equal to the verified subject id, even
when the caller-supplied data or rpc args contain a conflicting value for
that field: the proxy spreads the caller object and then overwrites
user_id, so the identity wins on conflict. -/
theorem C1_owner_field_forced
    (verifyKey : Token → Except String Unit) (eng : EngineState)
    (ser : EngineResult → JVal) (tok : Token) (uid m : String)
    (hm : m ≠ "OPTIONS") (b : ReqBody) (db : DbProxyBody)
    (hv : universalValidate verifyKey tok = .ok uid) :
    ((universalServe verifyKey eng ser
        ⟨m, some tok, { b with resource := some "database", operation := some "insert" }⟩).2
      = some (.dbInsert (b.table.getD "")
          [objSet (spreadOpt b.data) "user_id" (.jstr uid)], .dbOk))
    ∧ ((universalServe verifyKey eng ser
        ⟨m, some tok, { b with resource := some "database", operation := some "upsert" }⟩).2
      = some (.dbUpsert (b.table.getD "")
          [objSet (spreadOpt b.data) "user_id" (.jstr uid)], .dbOk))
    ∧ ((universalServe verifyKey eng ser ⟨m, some tok, { b with resource := some "rpc" }⟩).2
      = some (.rpcCall (b.functionName.getD "")
          (objSet (spreadOpt b.args) "user_id" (.jstr uid)), .rpcDone))
    ∧ jlookup (objSet (spreadOpt b.data) "user_id" (.jstr uid)) "user_id" = some (.jstr uid)
    ∧ jlookup (objSet (spreadOpt b.args) "user_id" (.jstr uid)) "user_id" = some (.jstr uid)
    ∧ ((dbProxyInsertRecords uid db.values).all
        (fun rec => decide (jlookup rec "user_id" = some (.jstr uid))) = true)
    ∧ (dbProxyHandler uid eng { db with operation := some "insert" }
        = .ok (jobjOf [("result", jarrOf ((dbProxyInsertRecords uid db.values).map rowJ))],
            some (.dbInsert (db.table.getD "") (dbProxyInsertRecords uid db.values),
              .dbRows (dbProxyInsertRecords uid db.values)))) := by
  refine ⟨?_, ?_, ?_, ?_, ?_, ?_, ?_⟩
  · unfold universalServe universalTry universalDatabase
    rw [if_neg hm]
    dsimp only
    rw [hv]
    simp
  · unfold universalServe universalTry universalDatabase
    rw [if_neg hm]
    dsimp only
    rw [hv]
    simp
  · unfold universalServe universalTry
    rw [if_neg hm]
    dsimp only
    rw [hv]
    simp
  · exact jlookup_objSet _ _ _
  · exact jlookup_objSet _ _ _
  · rw [List.all_eq_true]
    intro rec hrec
    exact decide_eq_true (mem_dbProxyInsertRecords_owner hrec)
  · unfold dbProxyHandler
    rfl

/-- Witness for C1 at a concrete spoofing input: the forwarded insert
record has user_id user-42 in place of the caller's mallory. -/
theorem C1_owner_field_forced_witness :
    (("POST" : String) ≠ "OPTIONS")
    ∧ universalValidate verifyAny tokA = .ok "user-42"
    ∧ (universalServe verifyAny engEmpty serNull
        ⟨"POST", some tokA,
          { bodyC1 with resource := some "database", operation := some "insert" }⟩).2
      = some (.dbInsert "todos"
          [[("user_id", .jstr "user-42"), ("x", .jnum 1)]], .dbOk) :=
  ⟨by decide, by rfl,
    (C1_owner_field_forced verifyAny engEmpty serNull tokA "user-42" "POST"
      (by decide) bodyC1 dbBodyC1 (by rfl)).1⟩

/-- C10: a database insert issued through the client wrapper and handled by
the universal proxy forwards a record consisting solely of the injected
owner field: the wrapper serializes the caller's builder state under the
query field of the body, while the proxy insert case spreads the absent
data field, so only user_id reaches the data engine. -/
theorem C10_wrapper_insert_forwards_owner_only
    (verifyKey : Token → Except String Unit) (eng : EngineState)
    (ser : EngineResult → JVal) (tok : Token) (uid m table : String)
    (cq : ClientQuery) (hm : m ≠ "OPTIONS")
    (hv : universalValidate verifyKey tok = .ok uid) :
    (universalServe verifyKey eng ser ⟨m, some tok, wrapperDbBody "insert" table cq⟩).2
      = some (.dbInsert table [[("user_id", .jstr uid)]], .dbOk) := by
  unfold universalServe universalTry universalDatabase wrapperDbBody
  rw [if_neg hm]
  dsimp only
  rw [hv]
  simp [objSet, spreadOpt]

/-- Witness for C10: a wrapper insert with caller filters in the builder
still forwards only the owner field. -/
theorem C10_wrapper_insert_forwards_owner_only_witness :
    (("POST" : String) ≠ "OPTIONS")
    ∧ universalValidate verifyAny tokA = .ok "user-42"
    ∧ (universalServe verifyAny engEmpty serNull
        ⟨"POST", some tokA, wrapperDbBody "insert" "todos" cqC10⟩).2
      = some (.dbInsert "todos" [[("user_id", .jstr "user-42")]], .dbOk) :=
  ⟨by decide, by rfl,
    C10_wrapper_insert_forwards_owner_only verifyAny engEmpty serNull tokA
      "user-42" "POST" "todos" cqC10 (by decide) (by rfl)⟩

/-- C2: every select against a non-public table returns only rows whose
owner field equals the verified subject: the universal proxy always forces
the identity filter, and the db-proxy forces it for every table other than
the public one, whatever caller filters are supplied. -/
theorem C2_select_rows_owned
    (verifyKey : Token → Except String Unit) (eng : EngineState)
    (ser : EngineResult → JVal) (tok : Token) (uid m : String)
    (b : ReqBody) (q : SerializedQuery) (db : DbProxyBody) (t2 : String)
    (hm : m ≠ "OPTIONS") (hv : universalValidate verifyKey tok = .ok uid)
    (hq : b.query = some q) (ht2 : t2 = db.table.getD "")
    (hpub : t2 ≠ "public_tables") :
    ((universalServe verifyKey eng ser
        ⟨m, some tok, { b with resource := some "database", operation := some "select" }⟩).2
      = some (.dbSelect (b.table.getD "") (jsOrStr q.select "*") [("user_id", .jstr uid)],
          .dbRows (runSelect (getTable eng (b.table.getD "")) [("user_id", .jstr uid)])))
    ∧ (∀ r ∈ runSelect (getTable eng (b.table.getD "")) [("user_id", .jstr uid)],
        jlookup r "user_id" = some (.jstr uid))
    ∧ (dbProxyHandler uid eng { db with operation := some "select" }
        = .ok (jobjOf [("result", jarrOf
              ((runSelect (getTable eng t2) (dbProxySelectFilters uid t2 db)).map rowJ))],
            some (.dbSelect t2 (jsOrStr db.columns "*") (dbProxySelectFilters uid t2 db),
              .dbRows (runSelect (getTable eng t2) (dbProxySelectFilters uid t2 db)))))
    ∧ (∀ r ∈ runSelect (getTable eng t2) (dbProxySelectFilters uid t2 db),
        jlookup r "user_id" = some (.jstr uid)) := by
  subst ht2
  refine ⟨?_, ?_, ?_, ?_⟩
  · unfold universalServe universalTry universalDatabase
    rw [if_neg hm]
    dsimp only
    rw [hv]
    dsimp only
    rw [hq]
    simp
  · intro r hr
    exact mem_runSelect_owner (List.mem_singleton.mpr rfl) hr
  · unfold dbProxyHandler
    rfl
  · intro r hr
    refine mem_runSelect_owner ?_ hr
    unfold dbProxySelectFilters
    rw [if_pos hpub]
    exact List.mem_append_left _ (List.mem_singleton.mpr rfl)

/-- Witness for C2: with a table holding rows of two owners, a select by
user-42 returns exactly the user-42 row, whose owner field checks out. -/
theorem C2_select_rows_owned_witness :
    (("POST" : String) ≠ "OPTIONS")
    ∧ universalValidate verifyAny tokA = .ok "user-42"
    ∧ bodyC2.query = some {}
    ∧ ("todos" : String) = dbBodyC2.table.getD ""
    ∧ (("todos" : String) ≠ "public_tables")
    ∧ (universalServe verifyAny engTodos serNull
        ⟨"POST", some tokA,
          { bodyC2 with resource := some "database", operation := some "select" }⟩).2
      = some (.dbSelect "todos" "*" [("user_id", .jstr "user-42")], .dbRows [rowOwn])
    ∧ jlookup rowOwn "user_id" = some (.jstr "user-42") := by
  have h := C2_select_rows_owned verifyAny engTodos serNull tokA "user-42" "POST"
    bodyC2 {} dbBodyC2 "todos" (by decide) (by rfl) (by rfl) (by rfl) (by decide)
  exact ⟨by decide, by rfl, by rfl, by rfl, by decide, h.1,
    h.2.1 rowOwn (by decide)⟩

/-- C9 counterexample: the universal proxy forwards a select whose filter
list is only the identity filter, dropping the caller-supplied status
filter that was present in the serialized query. -/
theorem C9_caller_filters_dropped_counterexample :
    (universalServe verifyAny engTodos serNull
        ⟨"POST", some tokA,
          { resource := some "database", operation := some "select", table := some "todos"
            query := some { filters := [("status", .jstr "done")], select := some "title" } }⟩).2
      = some (.dbSelect "todos" "title" [("user_id", .jstr "user-42")], .dbRows [rowOwn])
    ∧ (("status", JVal.jstr "done") ∉ ([("user_id", JVal.jstr "user-42")] : Fields)) := by
  constructor
  · rfl
  · decide

/-- C9 amended: the db-proxy select applies the requested columns, the
identity filter for non-public tables and then every caller filter, while
the universal proxy select applies the requested columns and the identity
filter only, ignoring the serialized caller filters. -/
theorem C9_select_filters_applied
    (verifyKey : Token → Except String Unit) (eng : EngineState)
    (ser : EngineResult → JVal) (tok : Token) (uid m : String)
    (b : ReqBody) (q : SerializedQuery) (db : DbProxyBody) (t2 : String)
    (hm : m ≠ "OPTIONS") (hv : universalValidate verifyKey tok = .ok uid)
    (hq : b.query = some q) (ht2 : t2 = db.table.getD "") :
    ((universalServe verifyKey eng ser
        ⟨m, some tok, { b with resource := some "database", operation := some "select" }⟩).2
      = some (.dbSelect (b.table.getD "") (jsOrStr q.select "*") [("user_id", .jstr uid)],
          .dbRows (runSelect (getTable eng (b.table.getD "")) [("user_id", .jstr uid)])))
    ∧ (dbProxyHandler uid eng { db with operation := some "select" }
        = .ok (jobjOf [("result", jarrOf
              ((runSelect (getTable eng t2) (dbProxySelectFilters uid t2 db)).map rowJ))],
            some (.dbSelect t2 (jsOrStr db.columns "*") (dbProxySelectFilters uid t2 db),
              .dbRows (runSelect (getTable eng t2) (dbProxySelectFilters uid t2 db)))))
    ∧ (t2 ≠ "public_tables" →
        dbProxySelectFilters uid t2 db = ("user_id", .jstr uid) :: db.filters.getD [])
    ∧ (t2 = "public_tables" → dbProxySelectFilters uid t2 db = db.filters.getD []) := by
  subst ht2
  refine ⟨?_, ?_, ?_, ?_⟩
  · unfold universalServe universalTry universalDatabase
    rw [if_neg hm]
    dsimp only
    rw [hv]
    dsimp only
    rw [hq]
    simp
  · unfold dbProxyHandler
    rfl
  · intro hpub
    unfold dbProxySelectFilters
    rw [if_pos hpub]
    rfl
  · intro hpub
    unfold dbProxySelectFilters
    rw [if_neg (by simpa using hpub)]
    rfl

/-- Witness for the amended C9: the db-proxy select filter list is the
identity filter followed by the caller's title filter. -/
theorem C9_select_filters_applied_witness :
    (("POST" : String) ≠ "OPTIONS")
    ∧ universalValidate verifyAny tokA = .ok "user-42"
    ∧ bodyC2.query = some {}
    ∧ ("todos" : String) = dbBodyC2.table.getD ""
    ∧ dbProxySelectFilters "user-42" "todos" dbBodyC2
        = ("user_id", .jstr "user-42") :: [("title", .jstr "a")] := by
  have h := C9_select_filters_applied verifyAny engTodos serNull tokA "user-42" "POST"
    bodyC2 {} dbBodyC2 "todos" (by decide) (by rfl) (by rfl) (by rfl)
  exact ⟨by decide, by rfl, by rfl, by rfl, h.2.2.1 (by decide)⟩

theorem runSelect_nil_of_other_owner {tbl : List Row} {idv : JVal} {uid : String}
    {fs : Fields} (hid : ("id", idv) ∈ fs) (hu : ("user_id", JVal.jstr uid) ∈ fs)
    (h : ∀ r ∈ tbl, jlookup r "id" = some idv →
      ¬ jlookup r "user_id" = some (.jstr uid)) :
    runSelect tbl fs = [] := by
  unfold runSelect
  rw [List.filter_eq_nil_iff]
  intro r hr hm
  exact h r hr (matchesFilters_mem hm hid) (matchesFilters_mem hm hu)

/-- C3 counterexample: deleting a row owned by another identity and
deleting an owned row produce byte-identical db-proxy responses (a bare
success flag), although the affected row sets differ (empty versus one
row); the response therefore reports no affected count at all, accurate or
otherwise. -/
theorem C3_no_affected_count_counterexample :
    dbProxyHandler "user-42" engForeign delBody
      = .ok (jobjOf [("result", jobjOf [("success", .jbool true)])],
          some (.dbDelete "todos" [("id", .jnum 1), ("user_id", .jstr "user-42")],
            .dbRows []))
    ∧ dbProxyHandler "user-42" engMine delBody
      = .ok (jobjOf [("result", jobjOf [("success", .jbool true)])],
          some (.dbDelete "todos" [("id", .jnum 1), ("user_id", .jstr "user-42")],
            .dbRows [rowMine])) :=
  ⟨by rfl, by rfl⟩

/-- C3 amended: an update or delete whose target row is owned by a
different identity affects zero rows and reports success; the db-proxy
update response carries the (empty) list of updated rows, while both the
db-proxy delete response (a bare success flag) and the universal proxy
update and delete responses carry no affected count. -/
theorem C3_update_delete_foreign_noop
    (verifyKey : Token → Except String Unit) (eng : EngineState)
    (ser : EngineResult → JVal) (tok : Token) (uid m : String)
    (b : ReqBody) (db : DbProxyBody)
    (hm : m ≠ "OPTIONS") (hv : universalValidate verifyKey tok = .ok uid)
    (hown1 : ∀ r ∈ getTable eng (b.table.getD ""),
      jlookup r "id" = some (b.id.getD .jnull) →
        ¬ jlookup r "user_id" = some (.jstr uid))
    (hown2 : ∀ r ∈ getTable eng (db.table.getD ""),
      jlookup r "id" = some (db.id.getD .jnull) →
        ¬ jlookup r "user_id" = some (.jstr uid)) :
    (universalServe verifyKey eng ser
        ⟨m, some tok, { b with resource := some "database", operation := some "update" }⟩
      = (⟨200, ser .dbOk⟩, some (.dbUpdate (b.table.getD "") (spreadOpt b.data)
          [("user_id", .jstr uid), ("id", b.id.getD .jnull)], .dbOk)))
    ∧ (universalServe verifyKey eng ser
        ⟨m, some tok, { b with resource := some "database", operation := some "delete" }⟩
      = (⟨200, ser .dbOk⟩, some (.dbDelete (b.table.getD "")
          [("user_id", .jstr uid), ("id", b.id.getD .jnull)], .dbOk)))
    ∧ runSelect (getTable eng (b.table.getD ""))
        [("user_id", .jstr uid), ("id", b.id.getD .jnull)] = []
    ∧ (dbProxyHandler uid eng { db with operation := some "update" }
      = .ok (jobjOf [("result", jarrOf [])],
          some (.dbUpdate (db.table.getD "") (spreadOpt db.values)
            [("id", db.id.getD .jnull), ("user_id", .jstr uid)], .dbRows [])))
    ∧ (dbProxyHandler uid eng { db with operation := some "delete" }
      = .ok (jobjOf [("result", jobjOf [("success", .jbool true)])],
          some (.dbDelete (db.table.getD "")
            [("id", db.id.getD .jnull), ("user_id", .jstr uid)], .dbRows []))) := by
  have hnilP : runSelect (getTable eng (db.table.getD ""))
      [("id", db.id.getD .jnull), ("user_id", .jstr uid)] = [] :=
    runSelect_nil_of_other_owner (by simp) (by simp) hown2
  refine ⟨?_, ?_, ?_, ?_, ?_⟩
  · unfold universalServe universalTry universalDatabase
    rw [if_neg hm]
    dsimp only
    rw [hv]
    simp
  · unfold universalServe universalTry universalDatabase
    rw [if_neg hm]
    dsimp only
    rw [hv]
    simp
  · exact runSelect_nil_of_other_owner (by simp) (by simp) hown1
  · have hstep : dbProxyHandler uid eng { db with operation := some "update" }
        = .ok (jobjOf [("result", jarrOf
              (((runSelect (getTable eng (db.table.getD ""))
                  [("id", db.id.getD .jnull), ("user_id", .jstr uid)]).map
                (fun r => applyUpdate r (spreadOpt db.values))).map rowJ))],
            some (.dbUpdate (db.table.getD "") (spreadOpt db.values)
                [("id", db.id.getD .jnull), ("user_id", .jstr uid)],
              .dbRows ((runSelect (getTable eng (db.table.getD ""))
                  [("id", db.id.getD .jnull), ("user_id", .jstr uid)]).map
                (fun r => applyUpdate r (spreadOpt db.values))))) := rfl
    rw [hstep, hnilP]
    rfl
  · have hstep : dbProxyHandler uid eng { db with operation := some "delete" }
        = .ok (jobjOf [("result", jobjOf [("success", .jbool true)])],
            some (.dbDelete (db.table.getD "")
                [("id", db.id.getD .jnull), ("user_id", .jstr uid)],
              .dbRows (runSelect (getTable eng (db.table.getD ""))
                [("id", db.id.getD .jnull), ("user_id", .jstr uid)]))) := rfl
    rw [hstep, hnilP]

/-- Witness for the amended C3: user-42 deleting the row that belongs to
mallory affects no row and still gets the success response. -/
theorem C3_update_delete_foreign_noop_witness :
    (("POST" : String) ≠ "OPTIONS")
    ∧ universalValidate verifyAny tokA = .ok "user-42"
    ∧ (∀ r ∈ getTable engForeign "todos", jlookup r "id" = some (.jnum 1) →
        ¬ jlookup r "user_id" = some (.jstr "user-42"))
    ∧ runSelect (getTable engForeign "todos")
        [("user_id", .jstr "user-42"), ("id", .jnum 1)] = []
    ∧ dbProxyHandler "user-42" engForeign { delBody with operation := some "delete" }
      = .ok (jobjOf [("result", jobjOf [("success", .jbool true)])],
          some (.dbDelete "todos" [("id", .jnum 1), ("user_id", .jstr "user-42")],
            .dbRows [])) := by
  have h := C3_update_delete_foreign_noop verifyAny engForeign serNull tokA
    "user-42" "POST" bodyDel delBody (by decide) (by rfl) (by decide) (by decide)
  exact ⟨by decide, by rfl, by decide, h.2.2.1, h.2.2.2.2⟩

/-- C4 counterexample: the storage-proxy list operation forwards the bare
subject id to the object store, not the subject id, a slash and the
caller-supplied path, although a caller path was supplied. -/
theorem C4_storage_list_path_counterexample :
    storageProxyHandler "user-42" cdnUrl .jnull formList
      = .ok (jobjOf [("result", .jnull)], [.stList "bkt" "user-42"])
    ∧ ("user-42" : String) ≠ "user-42" ++ "/" ++ "photos" :=
  ⟨by rfl, by decide⟩

/-- C4 amended: every universal proxy storage operation forwards the
subject id, a slash and the caller path (list defaulting an absent path to
the empty string, remove prefixing each path), and the storage-proxy
upload and delete operate on the same namespaced user path, but the
storage-proxy list forwards the bare subject id, ignoring the caller
path; every forwarded path thus stays inside the subject's namespace. -/
theorem C4_storage_paths_namespaced
    (verifyKey : Token → Except String Unit) (eng : EngineState)
    (ser : EngineResult → JVal) (tok : Token) (uid m : String)
    (b : ReqBody) (ps : List String) (pubU : String → String) (ld : JVal)
    (form : StorageForm)
    (hm : m ≠ "OPTIONS") (hv : universalValidate verifyKey tok = .ok uid)
    (hps : b.paths = some ps) :
    ((universalServe verifyKey eng ser
        ⟨m, some tok, { b with resource := some "storage", operation := some "upload" }⟩).2
      = some (.stUpload (b.bucket.getD "") (uid ++ "/" ++ jsTpl b.path), .stDone))
    ∧ ((universalServe verifyKey eng ser
        ⟨m, some tok, { b with resource := some "storage", operation := some "download" }⟩).2
      = some (.stDownload (b.bucket.getD "") (uid ++ "/" ++ jsTpl b.path), .stDone))
    ∧ ((universalServe verifyKey eng ser
        ⟨m, some tok, { b with resource := some "storage", operation := some "remove" }⟩).2
      = some (.stRemove (b.bucket.getD "") (ps.map (fun p => uid ++ "/" ++ p)), .stDone))
    ∧ ((universalServe verifyKey eng ser
        ⟨m, some tok, { b with resource := some "storage", operation := some "list" }⟩).2
      = some (.stList (b.bucket.getD "") (uid ++ "/" ++ jsOrStr b.path ""), .stDone))
    ∧ (storageProxyHandler uid pubU ld { form with operation := some "upload" }
      = .ok (jobjOf [("result", jobjOf
            [("path", .jstr (uid ++ "/" ++ form.path.getD "null")),
             ("publicUrl", .jstr (pubU (uid ++ "/" ++ form.path.getD "null")))])],
          [.stUpload (form.bucket.getD "") (uid ++ "/" ++ form.path.getD "null"),
           .stPublicUrl (form.bucket.getD "") (uid ++ "/" ++ form.path.getD "null")]))
    ∧ (storageProxyHandler uid pubU ld { form with operation := some "delete" }
      = .ok (jobjOf [("result", jobjOf [("success", .jbool true)])],
          [.stRemove (form.bucket.getD "") [uid ++ "/" ++ form.path.getD "null"]]))
    ∧ (storageProxyHandler uid pubU ld { form with operation := some "list" }
      = .ok (jobjOf [("result", ld)], [.stList (form.bucket.getD "") uid])) := by
  refine ⟨?_, ?_, ?_, ?_, ?_, ?_, ?_⟩
  · unfold universalServe universalTry universalStorage
    rw [if_neg hm]
    dsimp only
    rw [hv]
    simp
  · unfold universalServe universalTry universalStorage
    rw [if_neg hm]
    dsimp only
    rw [hv]
    simp
  · unfold universalServe universalTry universalStorage
    rw [if_neg hm]
    dsimp only
    rw [hv]
    dsimp only
    rw [hps]
    simp
  · unfold universalServe universalTry universalStorage
    rw [if_neg hm]
    dsimp only
    rw [hv]
    simp
  · unfold storageProxyHandler
    rfl
  · unfold storageProxyHandler
    rfl
  · unfold storageProxyHandler
    rfl

/-- Witness for the amended C4: concrete upload, remove and storage-proxy
calls under subject user-42 land under the user-42 namespace. -/
theorem C4_storage_paths_namespaced_witness :
    (("POST" : String) ≠ "OPTIONS")
    ∧ universalValidate verifyAny tokA = .ok "user-42"
    ∧ bodyC4.paths = some ["a.png", "b.png"]
    ∧ (universalServe verifyAny engEmpty serNull
        ⟨"POST", some tokA,
          { bodyC4 with resource := some "storage", operation := some "upload" }⟩).2
      = some (.stUpload "bkt" "user-42/photos/cat.png", .stDone)
    ∧ (universalServe verifyAny engEmpty serNull
        ⟨"POST", some tokA,
          { bodyC4 with resource := some "storage", operation := some "remove" }⟩).2
      = some (.stRemove "bkt" ["user-42/a.png", "user-42/b.png"], .stDone)
    ∧ storageProxyHandler "user-42" cdnUrl .jnull { formC4 with operation := some "list" }
      = .ok (jobjOf [("result", .jnull)], [.stList "bkt" "user-42"]) := by
  have h := C4_storage_paths_namespaced verifyAny engEmpty serNull tokA "user-42"
    "POST" bodyC4 ["a.png", "b.png"] cdnUrl .jnull formC4
    (by decide) (by rfl) (by rfl)
  exact ⟨by decide, by rfl, by rfl, h.1, h.2.2.1, h.2.2.2.2.2.2⟩

theorem getJWKS_fresh {st : JwksCacheState} {env : KeyFetchEnv} {ks : KeySet}
    (hc : st.jwksCache = some ks) (hf : env.now < st.cacheExpiry) :
    getJWKS st env = (.ok (ks, st), 0) := by
  unfold getJWKS
  rw [hc]
  dsimp only
  rw [if_pos hf]

/-- C5 counterexample: a token whose kid is absent from the freshly cached
key set is rejected by the simplified verifier with zero key-set fetches
performed and no retry, not the one forced re-fetch the claim requires. -/
theorem C5_no_refetch_counterexample :
    validateSimplified stFresh envC5 (some tokB)
      = (.error ("Token validation failed: "
          ++ "no applicable key found in the JSON Web Key Set"), stFresh, 0)
    ∧ ¬ ((validateSimplified stFresh envC5 (some tokB)).2.2 = 1) :=
  ⟨by rfl, by decide⟩

/-- C5 amended: when the token's kid matches no key of the cached set and
the thirty-minute cache is still fresh, the simplified verifier fails with
a token-validation error, performs no key-set re-fetch and makes no second
verification attempt; no repository verifier implements a kid-miss
refresh-and-retry of its own. -/
theorem C5_no_kid_retry (st : JwksCacheState) (env : KeyFetchEnv) (tok : Token)
    (ks : KeySet) (hc : st.jwksCache = some ks) (hf : env.now < st.cacheExpiry)
    (hkid : tok.kid ∉ ks) :
    validateSimplified st env (some tok)
      = (.error ("Token validation failed: "
          ++ "no applicable key found in the JSON Web Key Set"), st, 0) := by
  unfold validateSimplified
  rw [getJWKS_fresh hc hf]
  dsimp only
  unfold jwtVerifyLocal
  rw [if_neg hkid]

/-- Witness for the amended C5: a kid outside the cached pair of keys is
rejected with the cache state untouched and zero fetches. -/
theorem C5_no_kid_retry_witness :
    stC5.jwksCache = some ["kid1", "kid2"]
    ∧ envC5b.now < stC5.cacheExpiry
    ∧ tokZ.kid ∉ (["kid1", "kid2"] : KeySet)
    ∧ validateSimplified stC5 envC5b (some tokZ)
      = (.error ("Token validation failed: "
          ++ "no applicable key found in the JSON Web Key Set"), stC5, 0) := by
  have h := C5_no_kid_retry stC5 envC5b tokZ ["kid1", "kid2"]
    (by rfl) (by decide) (by decide)
  exact ⟨by rfl, by decide, by decide, h⟩

/-- C6 counterexample: with a stale key set still cached and the fetch
failing, getRowndKeys throws the fetch error (performing one fetch) instead
of serving the stale set. -/
theorem C6_stale_not_served_counterexample :
    getRowndKeys stStale envFail
      = (.error "Failed to fetch Rownd JWKS: Service Unavailable", 1)
    ∧ (getRowndKeys stStale envFail).1 ≠ .ok (["kidA"], stStale) := by
  constructor
  · rfl
  · rw [show (getRowndKeys stStale envFail).1
      = Except.error "Failed to fetch Rownd JWKS: Service Unavailable" from rfl]
    simp

/-- C6 amended: when the cached key set is past its freshness window and
the fetch fails, getRowndKeys propagates the fetch failure even though a
previously fetched key set is still held; the stale set is never served
and no eager-refresh mark exists. -/
theorem C6_fetch_failure_propagates (st : RowndKeysState) (env : KeyFetchEnv)
    (ks : KeySet) (e : String) (hc : st.jwksCache = some ks)
    (hstale : JWKS_CACHE_DURATION ≤ env.now - st.jwksCacheTime)
    (hfail : env.fetched = .error e) :
    getRowndKeys st env = (.error ("Failed to fetch Rownd JWKS: " ++ e), 1) := by
  unfold getRowndKeys rowndKeysFetch
  rw [hc]
  dsimp only
  rw [if_neg (by omega), hfail]

/-- Witness for the amended C6: the stale kidA cache plus a failing fetch
yields the propagated fetch error. -/
theorem C6_fetch_failure_propagates_witness :
    stStale.jwksCache = some ["kidA"]
    ∧ JWKS_CACHE_DURATION ≤ envFail.now - stStale.jwksCacheTime
    ∧ envFail.fetched = .error "Service Unavailable"
    ∧ getRowndKeys stStale envFail
      = (.error ("Failed to fetch Rownd JWKS: " ++ "Service Unavailable"), 1) := by
  have h := C6_fetch_failure_propagates stStale envFail ["kidA"] "Service Unavailable"
    (by rfl) (by decide) (by rfl)
  exact ⟨by rfl, by decide, by rfl, h⟩

theorem universalServe_eval (verifyKey : Token → Except String Unit)
    (eng : EngineState) (ser : EngineResult → JVal) (m : String)
    (t : Option Token) (b : ReqBody) (hm : m ≠ "OPTIONS") :
    universalServe verifyKey eng ser ⟨m, t, b⟩ =
      match universalTry verifyKey eng ser ⟨m, t, b⟩ with
      | .ok out => out
      | .error msg =>
        (⟨if strIncludes msg "Invalid token" then 401 else 500,
          jobjOf [("error", .jstr msg)]⟩, none) := by
  unfold universalServe
  rw [if_neg hm]

theorem universalTry_database (verifyKey : Token → Except String Unit)
    (eng : EngineState) (ser : EngineResult → JVal) (m : String) (tok : Token)
    (b : ReqBody) (uid : String) (hv : universalValidate verifyKey tok = .ok uid)
    (hres : b.resource = some "database") :
    universalTry verifyKey eng ser ⟨m, some tok, b⟩ =
      match universalDatabase uid eng b with
      | .error m' => .error m'
      | .ok (c, r) => .ok (⟨200, ser r⟩, some (c, r)) := by
  unfold universalTry
  dsimp only
  rw [hv]
  dsimp only
  rw [hres]
  simp

theorem universalTry_storage (verifyKey : Token → Except String Unit)
    (eng : EngineState) (ser : EngineResult → JVal) (m : String) (tok : Token)
    (b : ReqBody) (uid : String) (hv : universalValidate verifyKey tok = .ok uid)
    (hres : b.resource = some "storage") :
    universalTry verifyKey eng ser ⟨m, some tok, b⟩ =
      match universalStorage uid b with
      | .error m' => .error m'
      | .ok (c, r) => .ok (⟨200, ser r⟩, some (c, r)) := by
  unfold universalTry
  dsimp only
  rw [hv]
  dsimp only
  rw [hres]
  simp

theorem universalTry_unknown_resource (verifyKey : Token → Except String Unit)
    (eng : EngineState) (ser : EngineResult → JVal) (m : String) (tok : Token)
    (b : ReqBody) (uid : String) (hv : universalValidate verifyKey tok = .ok uid)
    (hr1 : b.resource ≠ some "health") (hr2 : b.resource ≠ some "database")
    (hr3 : b.resource ≠ some "storage") (hr4 : b.resource ≠ some "rpc") :
    universalTry verifyKey eng ser ⟨m, some tok, b⟩
      = .error ("Unknown resource: " ++ jsTpl b.resource) := by
  unfold universalTry
  dsimp only
  rw [hv]
  dsimp only
  rw [if_neg hr1, if_neg hr2, if_neg hr3, if_neg hr4]

/-- C7 counterexample: a POST without the X-Rownd-Token header through
createRowndHandler is answered with status 400, not 401, though the body
does name the missing header and no data-engine call is made. -/
theorem C7_status_400_counterexample :
    createRowndHandlerServe stFresh envC5 hndJ ⟨"POST", none⟩
      = (⟨400, jobjOf [("error", .jstr "Missing X-Rownd-Token header")]⟩, none)
    ∧ (createRowndHandlerServe stFresh envC5 hndJ ⟨"POST", none⟩).1.status ≠ 401 :=
  ⟨by rfl, by decide⟩

/-- C7 amended: a non-OPTIONS request without the token header gets a
response whose JSON body names the missing X-Rownd-Token header and causes
no data-engine call in all three entry points; the universal proxy and the
drop-in edge serve answer 401, while createRowndHandler answers 400. -/
theorem C7_missing_token_responses
    (verifyKey : Token → Except String Unit)
    (hnd1 : String → Except String (HttpResponse × Option (EngineCall × EngineResult)))
    (st : JwksCacheState) (env : KeyFetchEnv)
    (hnd2 : String → Except String (JVal × Option (EngineCall × EngineResult)))
    (eng : EngineState) (ser : EngineResult → JVal) (m : String) (b : ReqBody)
    (hm : m ≠ "OPTIONS") :
    universalServe verifyKey eng ser ⟨m, none, b⟩
      = (⟨401, jobjOf [("error", .jstr "Missing X-Rownd-Token header")]⟩, none)
    ∧ edgeServe verifyKey hnd1 ⟨m, none⟩
      = (⟨401, jobjOf [("error", .jstr "Missing X-Rownd-Token header")]⟩, none)
    ∧ createRowndHandlerServe st env hnd2 ⟨m, none⟩
      = (⟨400, jobjOf [("error", .jstr "Missing X-Rownd-Token header")]⟩, none) := by
  refine ⟨?_, ?_, ?_⟩
  · unfold universalServe universalTry
    rw [if_neg hm]
  · unfold edgeServe
    rw [if_neg hm]
  · unfold createRowndHandlerServe validateSimplified
    rw [if_neg hm]

/-- Witness for the amended C7 on a concrete POST without the header. -/
theorem C7_missing_token_responses_witness :
    (("POST" : String) ≠ "OPTIONS")
    ∧ universalServe verifyAny engEmpty serNull ⟨"POST", none, bodyC2⟩
      = (⟨401, jobjOf [("error", .jstr "Missing X-Rownd-Token header")]⟩, none)
    ∧ edgeServe verifyAny hndR ⟨"POST", none⟩
      = (⟨401, jobjOf [("error", .jstr "Missing X-Rownd-Token header")]⟩, none)
    ∧ createRowndHandlerServe stFresh envC5 hndJ ⟨"POST", none⟩
      = (⟨400, jobjOf [("error", .jstr "Missing X-Rownd-Token header")]⟩, none) := by
  have h := C7_missing_token_responses verifyAny hndR stFresh envC5 hndJ
    engEmpty serNull "POST" bodyC2 (by decide)
  exact ⟨by decide, h.1, h.2.1, h.2.2⟩

/-- C8 counterexample: an authenticated universal proxy request with an
unsupported database sub-operation is answered with HTTP 500, not 400. -/
theorem C8_unknown_op_500_counterexample :
    universalServe verifyAny engEmpty serNull
        ⟨"POST", some tokA,
          { resource := some "database", operation := some "frobnicate"
            table := some "todos" }⟩
      = (⟨500, jobjOf [("error", .jstr "Unknown database operation: frobnicate")]⟩, none)
    ∧ (500 : Nat) ≠ 400 :=
  ⟨by rfl, by decide⟩

/-- C8 amended: an authenticated request with an unsupported resource or
sub-operation fails with an unknown-operation error in the universal
proxy, whose catch-all maps it to HTTP 500 (401 being reserved for
invalid-token messages), while the db-proxy built on createRowndHandler
fails with an Unsupported-operation error that createRowndHandler maps to
HTTP 400. -/
theorem C8_unsupported_operation_statuses
    (verifyKey : Token → Except String Unit) (eng : EngineState)
    (ser : EngineResult → JVal) (tok tok2 : Token) (uid uid2 m op : String)
    (st : JwksCacheState) (env : KeyFetchEnv) (b : ReqBody) (db : DbProxyBody)
    (hm : m ≠ "OPTIONS") (hv : universalValidate verifyKey tok = .ok uid)
    (hop : b.operation = some op)
    (h1 : op ≠ "select") (h2 : op ≠ "insert") (h3 : op ≠ "update")
    (h4 : op ≠ "delete") (h5 : op ≠ "upsert") (h6 : op ≠ "upload")
    (h7 : op ≠ "download") (h8 : op ≠ "remove") (h9 : op ≠ "list")
    (hincD : strIncludes ("Unknown database operation: " ++ op) "Invalid token" = false)
    (hincS : strIncludes ("Unknown storage operation: " ++ op) "Invalid token" = false)
    (hv2 : (validateSimplified st env (some tok2)).1 = .ok (tok2, uid2)) :
    (universalServe verifyKey eng ser ⟨m, some tok, { b with resource := some "database" }⟩
      = (⟨500, jobjOf [("error", .jstr ("Unknown database operation: " ++ op))]⟩, none))
    ∧ (universalServe verifyKey eng ser ⟨m, some tok, { b with resource := some "storage" }⟩
      = (⟨500, jobjOf [("error", .jstr ("Unknown storage operation: " ++ op))]⟩, none))
    ∧ (b.resource = none →
        universalServe verifyKey eng ser ⟨m, some tok, b⟩
          = (⟨500, jobjOf [("error", .jstr "Unknown resource: undefined")]⟩, none))
    ∧ (dbProxyHandler uid2 eng { db with operation := some op }
      = .error ("Unsupported operation: " ++ op))
    ∧ (createRowndHandlerServe st env
        (fun u => dbProxyHandler u eng { db with operation := some op }) ⟨m, some tok2⟩
      = (⟨400, jobjOf [("error", .jstr ("Unsupported operation: " ++ op))]⟩, none)) := by
  have hD : universalDatabase uid eng { b with resource := some "database" }
      = .error ("Unknown database operation: " ++ op) := by
    unfold universalDatabase
    dsimp only
    rw [hop]
    rw [if_neg (by simp [h1]), if_neg (by simp [h2]), if_neg (by simp [h3]),
      if_neg (by simp [h4]), if_neg (by simp [h5])]
    simp [jsTpl]
  have hS : universalStorage uid { b with resource := some "storage" }
      = .error ("Unknown storage operation: " ++ op) := by
    unfold universalStorage
    dsimp only
    rw [hop]
    rw [if_neg (by simp [h6]), if_neg (by simp [h7]), if_neg (by simp [h8]),
      if_neg (by simp [h9])]
    simp [jsTpl]
  have hdb : dbProxyHandler uid2 eng { db with operation := some op }
      = .error ("Unsupported operation: " ++ op) := by
    unfold dbProxyHandler
    dsimp only
    rw [if_neg (by simp [h1]), if_neg (by simp [h2]), if_neg (by simp [h3]),
      if_neg (by simp [h4])]
    simp [jsTpl]
  refine ⟨?_, ?_, ?_, hdb, ?_⟩
  · have htry : universalTry verifyKey eng ser
        ⟨m, some tok, { b with resource := some "database" }⟩
        = .error ("Unknown database operation: " ++ op) := by
      rw [universalTry_database verifyKey eng ser m tok _ uid hv rfl, hD]
    rw [universalServe_eval verifyKey eng ser m (some tok) _ hm, htry]
    simp [hincD]
  · have htry : universalTry verifyKey eng ser
        ⟨m, some tok, { b with resource := some "storage" }⟩
        = .error ("Unknown storage operation: " ++ op) := by
      rw [universalTry_storage verifyKey eng ser m tok _ uid hv rfl, hS]
    rw [universalServe_eval verifyKey eng ser m (some tok) _ hm, htry]
    simp [hincS]
  · intro hres
    have htry : universalTry verifyKey eng ser ⟨m, some tok, b⟩
        = .error ("Unknown resource: " ++ jsTpl b.resource) :=
      universalTry_unknown_resource verifyKey eng ser m tok b uid hv
        (by simp [hres]) (by simp [hres]) (by simp [hres]) (by simp [hres])
    rw [universalServe_eval verifyKey eng ser m (some tok) b hm, htry, hres]
    rfl
  · unfold createRowndHandlerServe
    rw [if_neg hm, hv2]
    dsimp only
    rw [hdb]

/-- Witness for the amended C8: the unsupported operation frobnicate gets
500 from the universal proxy and 400 from the db-proxy handler. -/
theorem C8_unsupported_operation_statuses_witness :
    (("POST" : String) ≠ "OPTIONS")
    ∧ ("frobnicate" : String) ≠ "select"
    ∧ (validateSimplified stFresh envC5 (some tokA)).1 = .ok (tokA, "user-42")
    ∧ (universalServe verifyAny engEmpty serNull
        ⟨"POST", some tokA,
          { bodyC2 with resource := some "database", operation := some "frobnicate" }⟩
      = (⟨500, jobjOf [("error", .jstr ("Unknown database operation: " ++ "frobnicate"))]⟩,
          none))
    ∧ (createRowndHandlerServe stFresh envC5
        (fun u => dbProxyHandler u engEmpty { dbBodyC2 with operation := some "frobnicate" })
        ⟨"POST", some tokA⟩
      = (⟨400, jobjOf [("error", .jstr ("Unsupported operation: " ++ "frobnicate"))]⟩,
          none)) := by
  have h := C8_unsupported_operation_statuses verifyAny engEmpty serNull tokA tokA
    "user-42" "user-42" "POST" "frobnicate" stFresh envC5
    { bodyC2 with operation := some "frobnicate" } dbBodyC2
    (by decide) (by rfl) (by rfl) (by decide) (by decide) (by decide) (by decide)
    (by decide) (by decide) (by decide) (by decide) (by decide) (by rfl) (by rfl)
    (by rfl)
  exact ⟨by decide, by decide, by rfl, h.1, h.2.2.2.2⟩
